import Mathlib

/-!
Verification development for the PauPau enrollment backend
(`server.js`, slot-reservation and payment-reconciliation core).

The relational tables `reservas` and `horarios` are modelled as Lean lists,
`now()` as an integer timestamp carried in the server state, and each HTTP
handler / background task as a pure state transformer translated from the
SQL it executes.  The Mercado Pago client, the SMTP transporter and the
`uuid()` generator are external effects: the uuid and the MP outcome are
passed in as parameters, and e-mail dispatch is modelled by a predicate on
the rows the handler would select.
-/

namespace PauPau

/-- Reservation lifecycle state.  The source stores these as the strings
`'pendiente'`, `'pagado'`, `'bloqueado'`, `'cancelado'`; these four are the
only values the code ever writes. -/
inductive Estado where
  | pendiente
  | pagado
  | bloqueado
  | cancelado
deriving DecidableEq

/-- One row of the `reservas` table.  `reservado_hasta` is the nullable
`hold_expires_at` timestamp, `group_ref` the nullable group correlation id.
The `form_json` blob is opaque to every claim and is omitted. -/
structure Reserva where
  id : Nat
  horario_id : Nat
  alumno_nombre : String
  alumno_email : String
  estado : Estado
  reservado_hasta : Option Int
  group_ref : Option String
deriving DecidableEq

/-- The `reservas` table. -/
abbrev Ledger := List Reserva

/-- Whole mutable state visible to the handlers: the `horarios` table
(slot ids only; teacher data never affects control flow), the `reservas`
table, the next SERIAL id, and the database clock `now()`. -/
structure ServerState where
  horarios : List Nat
  reservas : Ledger
  nextId : Nat
  now : Int
deriving DecidableEq

/-- SQL `reservado_hasta IS NOT NULL AND reservado_hasta > now()`. -/
def expiresAfter (now : Int) : Option Int → Bool
  | none => false
  | some t => now < t

/-- SQL `reservado_hasta IS NOT NULL AND reservado_hasta < now()`
(the sweeper's expiry test). -/
def expiredBy (now : Int) : Option Int → Bool
  | none => false
  | some t => t < now

/-- A row that makes its slot unavailable: the disjunction used in the
`NOT EXISTS` subquery of both hold paths
(`estado='pagado' OR estado='bloqueado' OR (estado='pendiente' AND
reservado_hasta IS NOT NULL AND reservado_hasta>now())`). -/
def isBlocking (now : Int) (r : Reserva) : Bool :=
  r.estado == .pagado || r.estado == .bloqueado ||
    (r.estado == .pendiente && expiresAfter now r.reservado_hasta)

/-- A row the sweeper would cancel: `estado='pendiente' AND
reservado_hasta IS NOT NULL AND reservado_hasta < now()`. -/
def expiredPending (now : Int) (r : Reserva) : Bool :=
  r.estado == .pendiente && expiredBy now r.reservado_hasta

/-- A blocking row sitting on a given slot. -/
def blockingOn (now : Int) (hid : Nat) (r : Reserva) : Bool :=
  r.horario_id == hid && isBlocking now r

/-- SQL `EXISTS (SELECT 1 FROM reservas r WHERE r.horario_id=$hid AND <blocking>)`. -/
def slotBlocked (db : Ledger) (hid : Nat) (now : Int) : Bool :=
  db.any (blockingOn now hid)

/-- Number of blocking rows a slot has; the capacity invariant bounds it by 1. -/
def blockingCount (s : ServerState) (hid : Nat) : Nat :=
  s.reservas.countP (blockingOn s.now hid)

/-- The `STATE_CASE` SQL expression computing the derived display state of a
slot, translated branch for branch. -/
def derivedState (db : Ledger) (hid : Nat) (now : Int) : String :=
  if db.any (fun r => r.horario_id == hid && r.estado == .pagado) then "ocupado"
  else if db.any (fun r => r.horario_id == hid && r.estado == .bloqueado) then "bloqueado"
  else if db.any (fun r => r.horario_id == hid && r.estado == .pendiente &&
                    expiresAfter now r.reservado_hasta) then "pendiente"
  else "disponible"

/-- JS `String.prototype.toLowerCase`, character by character (structural,
so that concrete states evaluate; the modality strings are ASCII). -/
def toLowerStr (s : String) : String :=
  String.mk (s.data.map Char.toLower)

/-- The JS defaulting idiom `(v && String(v).trim()) || dflt` used for the
student name and e-mail: absent, empty or whitespace-only input falls back
to the default, anything else is trimmed. -/
def jsTextOrDefault (v : Option String) (dflt : String) : String :=
  match v with
  | none => dflt
  | some s => if s.trim = "" then dflt else s.trim

/-- `interval '10 minutes'` of the hold inserts, in seconds. -/
def holdSeconds : Int := 600

/-- `interval '24 hours'` of the admin forced-pending insert, in seconds. -/
def daySeconds : Int := 86400

/-- `interval '100 years'` of the admin blocked insert, in seconds
(100 × 365 days; only its positivity ever matters). -/
def centurySeconds : Int := 3153600000

/-- Response of `POST /hold`. -/
inductive HoldResp where
  | badRequest
  | notAvailable
  | ok (id : Nat) (reservado_hasta : Option Int)
deriving DecidableEq

/-- `POST /hold`: validate `horario_id` (JS falsiness of `Number(0)` /
absence collapses to `hid = 0`), run the availability `SELECT`, and on
success insert one `pendiente` row with a 10-minute hold.  The BEGIN/COMMIT
pair brackets exactly this check-then-insert. -/
def holdSimple (s : ServerState) (hid : Nat)
    (alumno_nombre alumno_email : Option String) : ServerState × HoldResp :=
  if hid = 0 then (s, .badRequest)
  else
    let name := jsTextOrDefault alumno_nombre "N/A"
    let email := jsTextOrDefault alumno_email "noemail@paupau.local"
    if s.horarios.contains hid && !slotBlocked s.reservas hid s.now then
      let hasta := some (s.now + holdSeconds)
      let r : Reserva :=
        { id := s.nextId, horario_id := hid, alumno_nombre := name,
          alumno_email := email, estado := .pendiente,
          reservado_hasta := hasta, group_ref := none }
      ({ s with reservas := s.reservas ++ [r], nextId := s.nextId + 1 },
       .ok s.nextId hasta)
    else (s, .notAvailable)

/-- Request body of `POST /crear-preferencia` (the fields the handler reads;
`form_modalidad` stands for `form?.modalidad`, `none` when the form is
absent or the field is falsy).  The price is a JS number, modelled as an
integer since only `price > 0` is ever tested. -/
structure PrefReq where
  title : Option String
  price : Int
  currency : String
  horarios_ids : List Nat
  horario_id : Nat
  alumno_nombre : Option String
  alumno_email : Option String
  form_modalidad : Option String
deriving DecidableEq

/-- `!title || typeof title !== 'string'` (absent or empty string is falsy;
non-string bodies are outside the model). -/
def titleOk : Option String → Bool
  | none => false
  | some t => t ≠ ""

/-- The `/^[A-Z]{3}$/` currency test. -/
def currencyOk (c : String) : Bool :=
  c.length == 3 && c.toList.all fun ch => ch.isUpper

/-- `horarios_ids.map(Number).filter(Boolean)` with the
`if (!list.length && Number(horario_id)) list=[horario_id]` fallback. -/
def resolvedList (req : PrefReq) : List Nat :=
  let l := req.horarios_ids.filter fun n => n ≠ 0
  if l.isEmpty && req.horario_id ≠ 0 then [req.horario_id] else l

/-- `(form && String(form.modalidad || 'individual').toLowerCase()) || 'individual'`. -/
def resolvedModalidad (req : PrefReq) : String :=
  toLowerStr (match req.form_modalidad with
   | none => "individual"
   | some m => if m = "" then "individual" else m)

/-- Response of `POST /crear-preferencia`.  `mpFailed` is the 502 returned
when the Mercado Pago preference call throws; note the individual-mode rows
were already committed at that point. -/
inductive PrefResp where
  | badRequest
  | notAvailable
  | mpFailed
  | ok (group_ref : String) (reservas_ids : List Nat)
deriving DecidableEq

/-- Row count of the availability query of the individual transaction:
`SELECT h.id FROM horarios h WHERE h.id = ANY($list) AND NOT EXISTS <blocking>`. -/
def availCount (s : ServerState) (list : List Nat) : Nat :=
  (s.horarios.filter fun h => list.contains h && !slotBlocked s.reservas h s.now).length

/-- The insert loop of the individual transaction: one `pendiente` row per
requested slot, in request order, each with a 10-minute hold, the shared
group ref and consecutive SERIAL ids.  Returns the collected `RETURNING id`s. -/
def insertHolds : ServerState → List Nat → String → String → String →
    ServerState × List Nat
  | s, [], _, _, _ => (s, [])
  | s, hid :: rest, name, email, g =>
    let r : Reserva :=
      { id := s.nextId, horario_id := hid, alumno_nombre := name,
        alumno_email := email, estado := .pendiente,
        reservado_hasta := some (s.now + holdSeconds), group_ref := some g }
    let s1 := { s with reservas := s.reservas ++ [r], nextId := s.nextId + 1 }
    let p := insertHolds s1 rest name email g
    (p.1, s.nextId :: p.2)

/-- The rows `insertHolds` appends, described directly (proved equal to the
loop by `insertHolds_eq`). -/
def mkRows (baseId : Nat) (now : Int) : List Nat → String → String → String → Ledger
  | [], _, _, _ => []
  | hid :: rest, name, email, g =>
    { id := baseId, horario_id := hid, alumno_nombre := name,
      alumno_email := email, estado := Estado.pendiente,
      reservado_hasta := some (now + holdSeconds), group_ref := some g } ::
      mkRows (baseId + 1) now rest name email g

/-- The consecutive SERIAL ids `baseId, baseId+1, …` handed out by the
insert loop. -/
def idsFrom (baseId : Nat) (k : Nat) : List Nat :=
  (List.range k).map fun i => baseId + i

/-- `POST /crear-preferencia`.  `g` is the freshly generated `uuid()` group
ref and `mpOk` the outcome of `mercadopago.preferences.create` (assumed
configured: `MP_ACCESS_TOKEN` present).  Individual mode runs the
all-or-nothing availability check and insert loop inside one transaction,
committed before the MP call; grupal mode touches no reservation rows. -/
def crearPreferencia (s : ServerState) (req : PrefReq) (g : String)
    (mpOk : Bool) : ServerState × PrefResp :=
  if titleOk req.title = false then (s, .badRequest)
  else if req.price ≤ 0 then (s, .badRequest)
  else if currencyOk req.currency = false then (s, .badRequest)
  else if resolvedModalidad req = "individual" ∧ (resolvedList req).isEmpty then
    (s, .badRequest)
  else if resolvedModalidad req = "individual" then
    if availCount s (resolvedList req) ≠ (resolvedList req).length then
      (s, .notAvailable)
    else if mpOk then
      ((insertHolds s (resolvedList req) (jsTextOrDefault req.alumno_nombre "N/A")
          (jsTextOrDefault req.alumno_email "noemail@paupau.local") g).1,
       .ok g (insertHolds s (resolvedList req)
          (jsTextOrDefault req.alumno_nombre "N/A")
          (jsTextOrDefault req.alumno_email "noemail@paupau.local") g).2)
    else
      ((insertHolds s (resolvedList req) (jsTextOrDefault req.alumno_nombre "N/A")
          (jsTextOrDefault req.alumno_email "noemail@paupau.local") g).1,
       .mpFailed)
  else if mpOk then (s, .ok g []) else (s, .mpFailed)

/-- One row under the sweeper's bulk `UPDATE reservas SET estado='cancelado'
WHERE estado='pendiente' AND reservado_hasta IS NOT NULL AND
reservado_hasta < now()`. -/
def sweepRow (now : Int) (r : Reserva) : Reserva :=
  if expiredPending now r then { r with estado := .cancelado } else r

/-- The sweeper tick over the whole table. -/
def sweep (now : Int) (db : Ledger) : Ledger :=
  db.map (sweepRow now)

/-- The sweeper tick as a state transformer. -/
def sweepState (s : ServerState) : ServerState :=
  { s with reservas := sweep s.now s.reservas }

/-- One row under the webhook confirmation
`UPDATE reservas SET estado='pagado', reservado_hasta=NULL
WHERE id = ANY($targetIds)`.  Note the update is keyed on the id alone:
the source has no `AND estado='pendiente'` precondition. -/
def confirmRow (targetIds : List Nat) (r : Reserva) : Reserva :=
  if targetIds.contains r.id then
    { r with estado := .pagado, reservado_hasta := none }
  else r

/-- The webhook confirmation update over the whole table. -/
def webhookConfirm (targetIds : List Nat) (db : Ledger) : Ledger :=
  db.map (confirmRow targetIds)

/-- `SELECT id FROM reservas WHERE group_ref = $g` — the webhook's fallback
resolution of target ids from the group correlation id. -/
def groupIds (db : Ledger) (g : String) : List Nat :=
  (db.filter fun r => r.group_ref == some g).map fun r => r.id

/-- The `infoQ` join of the webhook's mail block, restricted to the fields
that matter: rows whose id is targeted and whose slot still exists
(`JOIN horarios`; the `profesores` join is total by the foreign key). -/
def infoRows (horarios : List Nat) (db : Ledger) (targetIds : List Nat) : Ledger :=
  db.filter fun r => targetIds.contains r.id && horarios.contains r.horario_id

/-- Whether the individual webhook branch sends the student welcome e-mail:
the `infoQ` result is non-empty and `rows[0].alumno_email || ''` is truthy.
This is keyed on the target ids, not on which rows the UPDATE changed. -/
def welcomeEmailSent (horarios : List Nat) (db : Ledger) (targetIds : List Nat) : Bool :=
  match infoRows horarios db targetIds with
  | [] => false
  | r :: _ => r.alumno_email ≠ ""

/-- Metadata of a payment event, after the defensive extraction
(`evento.data.metadata`, falling back to `payment.findById(...).metadata`). -/
structure Meta where
  modalidad : Option String
  reservas_ids : List Nat
  group_ref : Option String
deriving DecidableEq

/-- An inbound `POST /webhook` body after defensive extraction: whether
`evento.type === 'payment' || evento.action.includes('payment')`, the
optional `evento.data.status`, and the resolved metadata (when present). -/
structure WebhookEvent where
  isPayment : Bool
  status : Option String
  meta : Option Meta
deriving DecidableEq

/-- `String(meta?.modalidad || 'individual').toLowerCase()`. -/
def eventModalidad (ev : WebhookEvent) : String :=
  toLowerStr (match ev.meta with
   | none => "individual"
   | some m =>
     match m.modalidad with
     | none => "individual"
     | some md => if md = "" then "individual" else md)

/-- Target reservation ids of an individual payment event:
`meta.reservas_ids.map(Number).filter(Boolean)`, falling back to the
`group_ref` lookup when that list is empty. -/
def eventTargets (db : Ledger) (ev : WebhookEvent) : List Nat :=
  let ids := (match ev.meta with
    | none => []
    | some m => m.reservas_ids).filter fun n => n ≠ 0
  if ids ≠ [] then ids
  else
    match ev.meta with
    | none => []
    | some m =>
      match m.group_ref with
      | none => []
      | some g => groupIds db g

/-- The early-return filter `evento?.data?.status && evento.data.status !==
'approved'`: a status explicitly present and not `approved`. -/
def statusNotApproved : Option String → Bool
  | none => false
  | some st => st ≠ "approved"

/-- The whole `POST /webhook` handler: every return path of the source is a
`res.sendStatus(200)`, including the final `catch`.  `procError` models any
exception thrown inside the `try` block (database or MP client failure)
reaching that catch with the state rolled back to `s`. -/
def webhookRespond (s : ServerState) (ev : WebhookEvent) (procError : Bool) :
    ServerState × Nat :=
  if procError then (s, 200)
  else if ev.isPayment = false then (s, 200)
  else if statusNotApproved ev.status then (s, 200)
  else if eventModalidad ev = "grupal" then (s, 200)
  else
    let targets := eventTargets s.reservas ev
    if targets = [] then (s, 200)
    else ({ s with reservas := webhookConfirm targets s.reservas }, 200)

/-- Rows the admin release / force-state updates cancel:
`horario_id=$hid AND estado IN (<estados>)`. -/
def cancelOn (hid : Nat) (estados : List Estado) (r : Reserva) : Reserva :=
  if r.horario_id == hid && estados.contains r.estado then
    { r with estado := .cancelado }
  else r

/-- `POST /admin/horarios/:id/liberar`: cancel every `pendiente`,
`bloqueado` or `pagado` row of the slot. -/
def adminLiberar (s : ServerState) (hid : Nat) : ServerState :=
  if hid = 0 then s
  else { s with reservas :=
         s.reservas.map (cancelOn hid [.pendiente, .bloqueado, .pagado]) }

/-- Response of `POST /admin/horarios/:id/estado`. -/
inductive AdminResp where
  | badRequest
  | paidConflict
  | ok
deriving DecidableEq

/-- `POST /admin/horarios/:id/estado`: refuse any non-`disponible` change
while a `pagado` row exists; otherwise cancel the co-existing rows and, for
`pendiente`/`bloqueado`, insert the one fresh admin row. -/
def adminEstado (s : ServerState) (hid : Nat) (est : String) :
    ServerState × AdminResp :=
  if hid = 0 ∨ est = "" then (s, .badRequest)
  else if (s.reservas.any fun r => r.horario_id == hid && r.estado == .pagado) ∧
          est ≠ "disponible" then (s, .paidConflict)
  else if est = "disponible" then
    ({ s with reservas :=
       s.reservas.map (cancelOn hid [.pendiente, .bloqueado, .pagado]) }, .ok)
  else if est = "pendiente" then
    let db := s.reservas.map (cancelOn hid [.pendiente, .bloqueado])
    let r : Reserva :=
      { id := s.nextId, horario_id := hid, alumno_nombre := "ADMIN",
        alumno_email := "admin@paupau.local", estado := .pendiente,
        reservado_hasta := some (s.now + daySeconds), group_ref := none }
    ({ s with reservas := db ++ [r], nextId := s.nextId + 1 }, .ok)
  else if est = "bloqueado" then
    let db := s.reservas.map (cancelOn hid [.pendiente, .bloqueado])
    let r : Reserva :=
      { id := s.nextId, horario_id := hid, alumno_nombre := "ADMIN",
        alumno_email := "admin@paupau.local", estado := .bloqueado,
        reservado_hasta := some (s.now + centurySeconds), group_ref := none }
    ({ s with reservas := db ++ [r], nextId := s.nextId + 1 }, .ok)
  else (s, .badRequest)

/-- The empty deployment: no slots, no reservations, SERIAL at 1, epoch 0. -/
def initState : ServerState :=
  { horarios := [], reservas := [], nextId := 1, now := 0 }

/-- Ledger states reachable by the system's writers.  `tick` advances the
database clock monotonically; `addSlot` is the admin slot insert (SERIAL
primary key, hence the freshness hypothesis); `webhook` is the reconciling
confirmation, resolving its targets from a group correlation id exactly as
the handler's `group_ref` fallback does, and is permitted only when the
`withWebhook` flag is set so that the capacity invariant can be stated both
with and without it. -/
inductive Reaches (w : Bool) : ServerState → Prop where
  | init : Reaches w initState
  | tick {s : ServerState} (t : Int) :
      Reaches w s → s.now ≤ t → Reaches w { s with now := t }
  | addSlot {s : ServerState} (hid : Nat) :
      Reaches w s → hid ∉ s.horarios →
      Reaches w { s with horarios := s.horarios ++ [hid] }
  | hold {s : ServerState} (hid : Nat) (nm em : Option String) :
      Reaches w s → Reaches w (holdSimple s hid nm em).1
  | pref {s : ServerState} (req : PrefReq) (g : String) (mpOk : Bool) :
      Reaches w s → Reaches w (crearPreferencia s req g mpOk).1
  | sweeper {s : ServerState} :
      Reaches w s → Reaches w (sweepState s)
  | webhook {s : ServerState} (g : String) :
      w = true → Reaches w s →
      Reaches w
        { s with reservas := webhookConfirm (groupIds s.reservas g) s.reservas }
  | liberar {s : ServerState} (hid : Nat) :
      Reaches w s → Reaches w (adminLiberar s hid)
  | forceEstado {s : ServerState} (hid : Nat) (est : String) :
      Reaches w s → Reaches w (adminEstado s hid est).1

/-- Checkout request used in the capacity-violation scenario: one slot,
valid title/price/currency, individual mode. -/
def cexReq : PrefReq :=
  { title := some "Clases", price := 1, currency := "ARS",
    horarios_ids := [1], horario_id := 0,
    alumno_nombre := some "Ana", alumno_email := some "ana@x.com",
    form_modalidad := none }

/-- A reachable state violating the capacity invariant: slot 1 is created;
a checkout holds it (row 1, hold expires at 600); the clock passes 700 and
the sweeper cancels row 1; a second student holds the now-free slot (row 2);
then the payment webhook for the first checkout arrives and its
unconditional UPDATE resurrects row 1 to `pagado` — leaving slot 1 with two
blocking rows. -/
def cexState : ServerState :=
  let s1 := { initState with horarios := initState.horarios ++ [1] }
  let s2 := (crearPreferencia s1 cexReq "g1" true).1
  let s3 := { s2 with now := 700 }
  let s4 := sweepState s3
  let s5 := (holdSimple s4 1 (some "Bea") (some "bea@x.com")).1
  { s5 with reservas := webhookConfirm (groupIds s5.reservas "g1") s5.reservas }

/-!  Helper lemmas about the blocking predicate and row transformers. -/

/-- Blocking status is antitone in time: a row blocking at a later clock was
already blocking at any earlier clock (holds can only expire as time moves
forward; `pagado`/`bloqueado` block at every time). -/
theorem isBlocking_mono {t₁ t₂ : Int} (r : Reserva) (hle : t₁ ≤ t₂)
    (hb : isBlocking t₂ r = true) : isBlocking t₁ r = true := by
  unfold isBlocking expiresAfter at *
  rcases r with ⟨_, _, _, _, e, h, _⟩
  cases e <;> cases h <;> simp_all
  omega

/-- Slot-blocking membership version of `isBlocking_mono`. -/
theorem blockingOn_mono {t₁ t₂ : Int} (hid : Nat) (r : Reserva) (hle : t₁ ≤ t₂)
    (hb : blockingOn t₂ hid r = true) : blockingOn t₁ hid r = true := by
  unfold blockingOn at *
  rcases Bool.and_eq_true .. |>.mp hb with ⟨h1, h2⟩
  exact Bool.and_eq_true .. |>.mpr ⟨h1, isBlocking_mono r hle h2⟩

/-- The `expiresAfter` test in terms of the stored timestamp. -/
theorem expiresAfter_iff (now : Int) (h : Option Int) :
    expiresAfter now h = true ↔ ∃ t, h = some t ∧ now < t := by
  cases h <;> simp [expiresAfter]

/-- A slot with no blocking row contributes zero to the blocking count. -/
theorem countP_blocking_eq_zero {db : Ledger} {hid : Nat} {now : Int}
    (h : slotBlocked db hid now = false) :
    db.countP (blockingOn now hid) = 0 := by
  rw [List.countP_eq_zero]
  intro r hr
  have := List.any_eq_false.mp h r hr
  simp_all

/-- The confirm UPDATE on a targeted row. -/
theorem confirmRow_mem {ids : List Nat} {r : Reserva} (h : r.id ∈ ids) :
    confirmRow ids r =
      { r with estado := Estado.pagado, reservado_hasta := none } := by
  unfold confirmRow
  simp [h]

/-- The confirm UPDATE on a row outside the target set. -/
theorem confirmRow_not_mem {ids : List Nat} {r : Reserva} (h : r.id ∉ ids) :
    confirmRow ids r = r := by
  unfold confirmRow
  simp [h]

/-- The confirm UPDATE never changes the primary key. -/
theorem confirmRow_id (ids : List Nat) (r : Reserva) :
    (confirmRow ids r).id = r.id := by
  unfold confirmRow
  split <;> rfl

/-- The confirm UPDATE is idempotent on each row. -/
theorem confirmRow_idem (ids : List Nat) (r : Reserva) :
    confirmRow ids (confirmRow ids r) = confirmRow ids r := by
  by_cases h : r.id ∈ ids
  · have h2 : ({ r with estado := Estado.pagado, reservado_hasta := none } : Reserva).id ∈ ids := h
    rw [confirmRow_mem h, confirmRow_mem h2]
  · rw [confirmRow_not_mem h, confirmRow_not_mem h]

/-- The sweeper on an expired pending row. -/
theorem sweepRow_of_expired {now : Int} {r : Reserva}
    (h : expiredPending now r = true) :
    sweepRow now r = { r with estado := Estado.cancelado } := by
  unfold sweepRow
  simp [h]

/-- The sweeper on any other row. -/
theorem sweepRow_of_not_expired {now : Int} {r : Reserva}
    (h : expiredPending now r = false) : sweepRow now r = r := by
  unfold sweepRow
  simp [h]

/-!  Claim theorems. -/

/-- C9: every inbound `POST /webhook` request — non-payment events, events
with a non-approved status, events resolving to no reservations, and
deliveries whose internal processing throws — is acknowledged with HTTP
200; no webhook input produces an error response to the processor. -/
theorem c9_webhook_always_acks_200 (s : ServerState) (ev : WebhookEvent)
    (procError : Bool) : (webhookRespond s ev procError).2 = 200 := by
  unfold webhookRespond
  repeat first
    | rfl
    | split
  by_cases ht : eventTargets s.reservas ev = [] <;> simp [ht]

/-- C6: the derived display state of a slot follows the fixed priority
order of `STATE_CASE`: any `pagado` row makes it `ocupado`; otherwise any
`bloqueado` row makes it `bloqueado`; otherwise any `pendiente` row with a
non-null, future hold expiry makes it `pendiente`; otherwise `disponible`.
A confirmed row dominates even when an unexpired pending row coexists. -/
theorem c6_derived_state_priority (db : Ledger) (hid : Nat) (now : Int) :
    (derivedState db hid now = "ocupado" ↔
      ∃ r ∈ db, r.horario_id = hid ∧ r.estado = Estado.pagado) ∧
    (derivedState db hid now = "bloqueado" ↔
      (¬ ∃ r ∈ db, r.horario_id = hid ∧ r.estado = Estado.pagado) ∧
      ∃ r ∈ db, r.horario_id = hid ∧ r.estado = Estado.bloqueado) ∧
    (derivedState db hid now = "pendiente" ↔
      (¬ ∃ r ∈ db, r.horario_id = hid ∧ r.estado = Estado.pagado) ∧
      (¬ ∃ r ∈ db, r.horario_id = hid ∧ r.estado = Estado.bloqueado) ∧
      ∃ r ∈ db, r.horario_id = hid ∧ r.estado = Estado.pendiente ∧
        ∃ t, r.reservado_hasta = some t ∧ now < t) ∧
    (derivedState db hid now = "disponible" ↔
      (¬ ∃ r ∈ db, r.horario_id = hid ∧ r.estado = Estado.pagado) ∧
      (¬ ∃ r ∈ db, r.horario_id = hid ∧ r.estado = Estado.bloqueado) ∧
      ¬ ∃ r ∈ db, r.horario_id = hid ∧ r.estado = Estado.pendiente ∧
        ∃ t, r.reservado_hasta = some t ∧ now < t) := by
  have hpag : (db.any fun r => r.horario_id == hid && r.estado == Estado.pagado) = true ↔
      ∃ r ∈ db, r.horario_id = hid ∧ r.estado = Estado.pagado := by
    simp [List.any_eq_true]
  have hblo : (db.any fun r => r.horario_id == hid && r.estado == Estado.bloqueado) = true ↔
      ∃ r ∈ db, r.horario_id = hid ∧ r.estado = Estado.bloqueado := by
    simp [List.any_eq_true]
  have hpen : (db.any fun r => r.horario_id == hid && r.estado == Estado.pendiente &&
      expiresAfter now r.reservado_hasta) = true ↔
      ∃ r ∈ db, r.horario_id = hid ∧ r.estado = Estado.pendiente ∧
        ∃ t, r.reservado_hasta = some t ∧ now < t := by
    simp [List.any_eq_true, expiresAfter_iff, and_assoc]
  by_cases h1 : (db.any fun r => r.horario_id == hid && r.estado == Estado.pagado) = true
  · have hd : derivedState db hid now = "ocupado" := by
      unfold derivedState
      rw [if_pos h1]
    refine ⟨?_, ?_, ?_, ?_⟩ <;> rw [hd] <;> simp [hpag.mp h1]
  · have hA : ¬ ∃ r ∈ db, r.horario_id = hid ∧ r.estado = Estado.pagado :=
      fun ha => h1 (hpag.mpr ha)
    by_cases h2 : (db.any fun r => r.horario_id == hid && r.estado == Estado.bloqueado) = true
    · have hd : derivedState db hid now = "bloqueado" := by
        unfold derivedState
        rw [if_neg h1, if_pos h2]
      refine ⟨?_, ?_, ?_, ?_⟩ <;> rw [hd] <;> simp [hA, hblo.mp h2]
    · have hB : ¬ ∃ r ∈ db, r.horario_id = hid ∧ r.estado = Estado.bloqueado :=
        fun hb => h2 (hblo.mpr hb)
      by_cases h3 : (db.any fun r => r.horario_id == hid && r.estado == Estado.pendiente &&
          expiresAfter now r.reservado_hasta) = true
      · have hd : derivedState db hid now = "pendiente" := by
          unfold derivedState
          rw [if_neg h1, if_neg h2, if_pos h3]
        refine ⟨?_, ?_, ?_, ?_⟩ <;> rw [hd] <;> simp [hA, hB, hpen.mp h3]
      · have hC : ¬ ∃ r ∈ db, r.horario_id = hid ∧ r.estado = Estado.pendiente ∧
            ∃ t, r.reservado_hasta = some t ∧ now < t :=
          fun hc => h3 (hpen.mpr hc)
        have hd : derivedState db hid now = "disponible" := by
          unfold derivedState
          rw [if_neg h1, if_neg h2, if_neg h3]
        refine ⟨?_, ?_, ?_, ?_⟩ <;> rw [hd] <;> simp [hA, hB, hC]

/-- C1 fails on the code: the webhook confirmation UPDATE has no
`AND estado='pendiente'` guard, so a targeted row in state `cancelado` is
not left unchanged — it is resurrected to `pagado` — and a targeted row
already `pagado` has its `reservado_hasta` overwritten to NULL. -/
theorem c1_counterexample_resurrection :
    Reserva.estado ⟨1, 5, "Ana", "ana@x.com", Estado.cancelado, none, some "g1"⟩ =
      Estado.cancelado ∧
    webhookConfirm [1] [⟨1, 5, "Ana", "ana@x.com", Estado.cancelado, none, some "g1"⟩] =
      [⟨1, 5, "Ana", "ana@x.com", Estado.pagado, none, some "g1"⟩] ∧
    webhookConfirm [2] [⟨2, 5, "Eva", "eva@x.com", Estado.pagado, some 999, none⟩] =
      [⟨2, 5, "Eva", "eva@x.com", Estado.pagado, none, none⟩] :=
  ⟨rfl, rfl, rfl⟩

/-- C1 amended: the confirmation UPDATE is keyed on the id set alone.
Every targeted row — whatever its prior state, including `cancelado` and
`pagado` — is set to `pagado` with its hold expiry cleared; only rows
outside the target id set are left unchanged. -/
theorem c1_confirm_update_unconditional (ids : List Nat) (db : Ledger) :
    (∀ r ∈ webhookConfirm ids db, r.id ∈ ids →
        r.estado = Estado.pagado ∧ r.reservado_hasta = none) ∧
    (∀ r ∈ db, r.id ∈ ids →
        ({ r with estado := Estado.pagado, reservado_hasta := none } : Reserva) ∈
          webhookConfirm ids db) ∧
    (∀ r ∈ db, r.id ∉ ids → r ∈ webhookConfirm ids db) := by
  refine ⟨?_, ?_, ?_⟩
  · intro r hr hmem
    rcases List.mem_map.mp hr with ⟨r₀, hr₀, rfl⟩
    by_cases hc : r₀.id ∈ ids
    · rw [confirmRow_mem hc]
      exact ⟨rfl, rfl⟩
    · rw [confirmRow_not_mem hc] at hmem
      exact absurd hmem hc
  · intro r hr hmem
    exact List.mem_map.mpr ⟨r, hr, confirmRow_mem hmem⟩
  · intro r hr hmem
    exact List.mem_map.mpr ⟨r, hr, confirmRow_not_mem hmem⟩

/-- Witness for `c1_confirm_update_unconditional` at a concrete ledger. -/
theorem c1_confirm_update_unconditional_witness :
    ({ id := 1, horario_id := 5, alumno_nombre := "Ana", alumno_email := "ana@x.com",
       estado := Estado.pagado, reservado_hasta := none, group_ref := some "g1" } : Reserva) ∈
      webhookConfirm [1]
        [⟨1, 5, "Ana", "ana@x.com", Estado.cancelado, some 600, some "g1"⟩] :=
  (c1_confirm_update_unconditional [1]
      [⟨1, 5, "Ana", "ana@x.com", Estado.cancelado, some 600, some "g1"⟩]).2.1
    ⟨1, 5, "Ana", "ana@x.com", Estado.cancelado, some 600, some "g1"⟩
    (by simp) (by simp)

/-- C3 fails on the code: when the sweeper cancels an expired `pendiente`
row first and the webhook confirmation then targets the same row, the row
is first `cancelado` and then overwritten to `pagado` — exactly the
"cancelled then overwritten to confirmed" outcome the claim rules out
(the confirm UPDATE lacks the `estado='pendiente'` precondition). -/
theorem c3_counterexample_cancel_then_confirm :
    sweep 700 [⟨1, 2, "Ana", "ana@x.com", Estado.pendiente, some 600, some "g1"⟩] =
      [⟨1, 2, "Ana", "ana@x.com", Estado.cancelado, some 600, some "g1"⟩] ∧
    webhookConfirm [1]
        (sweep 700 [⟨1, 2, "Ana", "ana@x.com", Estado.pendiente, some 600, some "g1"⟩]) =
      [⟨1, 2, "Ana", "ana@x.com", Estado.pagado, none, some "g1"⟩] :=
  ⟨rfl, rfl⟩

/-- C3 amended: in both interleavings the targeted `pendiente` row ends in
the single definite state `pagado` and neither pure update raises: if the
webhook runs first the sweeper leaves the `pagado` row alone, and if the
sweeper runs first (row expired) it cancels the row and the webhook then
overwrites the cancellation to `pagado` rather than skipping it. -/
theorem c3_race_both_orders_end_pagado (now : Int) (ids : List Nat) (db : Ledger) :
    webhookConfirm ids (sweep now db) =
      db.map (fun r => confirmRow ids (sweepRow now r)) ∧
    sweep now (webhookConfirm ids db) =
      db.map (fun r => sweepRow now (confirmRow ids r)) ∧
    ∀ r : Reserva, r.estado = Estado.pendiente → r.id ∈ ids →
      (expiredPending now r = true → (sweepRow now r).estado = Estado.cancelado) ∧
      confirmRow ids (sweepRow now r) =
        { r with estado := Estado.pagado, reservado_hasta := none } ∧
      sweepRow now (confirmRow ids r) =
        { r with estado := Estado.pagado, reservado_hasta := none } := by
  refine ⟨by simp [webhookConfirm, sweep, List.map_map, Function.comp],
          by simp [webhookConfirm, sweep, List.map_map, Function.comp], ?_⟩
  intro r hpend hmem
  refine ⟨?_, ?_, ?_⟩
  · intro hexp
    rw [sweepRow_of_expired hexp]
  · by_cases hexp : expiredPending now r = true
    · have h2 : ({ r with estado := Estado.cancelado } : Reserva).id ∈ ids := hmem
      rw [sweepRow_of_expired hexp, confirmRow_mem h2]
    · rw [sweepRow_of_not_expired (by simpa using hexp), confirmRow_mem hmem]
  · rw [confirmRow_mem hmem]
    exact sweepRow_of_not_expired (by simp [expiredPending])

/-- Witness for `c3_race_both_orders_end_pagado` at a concrete expired row. -/
theorem c3_race_both_orders_end_pagado_witness :
    confirmRow [1] (sweepRow 700 ⟨1, 2, "Ana", "ana@x.com", Estado.pendiente, some 600, none⟩) =
      ({ id := 1, horario_id := 2, alumno_nombre := "Ana", alumno_email := "ana@x.com",
         estado := Estado.pagado, reservado_hasta := none, group_ref := none } : Reserva) :=
  ((c3_race_both_orders_end_pagado 700 [1]
      [⟨1, 2, "Ana", "ana@x.com", Estado.pendiente, some 600, none⟩]).2.2
    ⟨1, 2, "Ana", "ana@x.com", Estado.pendiente, some 600, none⟩
    rfl (by simp)).2.1

/-- C4 fails on the code: a second delivery of the same approved-payment
event leaves every reservation state unchanged (the UPDATE is idempotent on
states), but the welcome e-mail block keys off the target id rows — which
are still present and non-empty — rather than off the set of rows the
UPDATE actually transitioned, so the second call re-sends the welcome
e-mail instead of suppressing it. -/
theorem c4_counterexample_duplicate_welcome :
    webhookConfirm [1]
        (webhookConfirm [1] [⟨1, 2, "Ana", "ana@x.com", Estado.pendiente, some 600, some "g1"⟩]) =
      webhookConfirm [1] [⟨1, 2, "Ana", "ana@x.com", Estado.pendiente, some 600, some "g1"⟩] ∧
    welcomeEmailSent [2]
        (webhookConfirm [1]
          (webhookConfirm [1] [⟨1, 2, "Ana", "ana@x.com", Estado.pendiente, some 600, some "g1"⟩]))
        [1] = true := by
  constructor <;> rfl

/-- C4 amended: the confirmation UPDATE is idempotent — a second identical
delivery leaves every reservation row exactly as the first left it and no
branch raises — but the welcome-e-mail condition is a function of the
target ids and the post-update table alone, so the retried delivery sends
exactly the same e-mails as the first instead of suppressing them. -/
theorem c4_idempotent_confirm_resends_mail (ids : List Nat) (db : Ledger)
    (hs : List Nat) :
    webhookConfirm ids (webhookConfirm ids db) = webhookConfirm ids db ∧
    welcomeEmailSent hs (webhookConfirm ids (webhookConfirm ids db)) ids =
      welcomeEmailSent hs (webhookConfirm ids db) ids := by
  have hmap : webhookConfirm ids (webhookConfirm ids db) = webhookConfirm ids db := by
    unfold webhookConfirm
    rw [List.map_map]
    exact List.map_congr_left fun r _ => confirmRow_idem ids r
  exact ⟨hmap, by rw [hmap]⟩

/-!  The insert loop of the individual checkout transaction. -/

/-- Consecutive ids, unfolded one step. -/
theorem idsFrom_succ (b k : Nat) : idsFrom b (k + 1) = b :: idsFrom (b + 1) k := by
  unfold idsFrom
  rw [List.range_succ_eq_map, List.map_cons, List.map_map]
  congr 1
  exact List.map_congr_left fun i _ => by simp [Function.comp]; omega

/-- The insert loop appends exactly the rows described by `mkRows`, advances
the SERIAL counter by the list length, and returns the consecutive ids. -/
theorem insertHolds_eq (list : List Nat) :
    ∀ (s : ServerState) (name email g : String),
      insertHolds s list name email g =
        ({ s with
           reservas := s.reservas ++ mkRows s.nextId s.now list name email g,
           nextId := s.nextId + list.length },
         idsFrom s.nextId list.length) := by
  induction list with
  | nil =>
    intro s name email g
    simp [insertHolds, mkRows, idsFrom]
  | cons hid rest ih =>
    intro s name email g
    simp only [insertHolds, mkRows, ih]
    refine Prod.ext ?_ ?_
    · show ServerState.mk _ _ _ _ = ServerState.mk _ _ _ _
      simp [List.append_assoc]
      omega
    · show _ :: _ = idsFrom s.nextId (rest.length + 1)
      rw [idsFrom_succ]

/-- Every row the insert loop creates is `pendiente`, holds for 10 minutes
from the transaction's `now()`, and carries the shared group ref. -/
theorem mkRows_fields (baseId : Nat) (now : Int) (list : List Nat)
    (name email g : String) :
    ∀ r ∈ mkRows baseId now list name email g,
      r.estado = Estado.pendiente ∧
      r.reservado_hasta = some (now + holdSeconds) ∧
      r.group_ref = some g ∧
      r.alumno_nombre = name ∧ r.alumno_email = email := by
  induction list generalizing baseId with
  | nil => intro r hr; simp [mkRows] at hr
  | cons hid rest ih =>
    intro r hr
    rcases List.mem_cons.mp hr with hr | hr
    · subst hr
      exact ⟨rfl, rfl, rfl, rfl, rfl⟩
    · exact ih (baseId + 1) r hr

/-- The created rows claim exactly the requested slots, in order. -/
theorem mkRows_map_horario (baseId : Nat) (now : Int) (list : List Nat)
    (name email g : String) :
    (mkRows baseId now list name email g).map (fun r => r.horario_id) = list := by
  induction list generalizing baseId with
  | nil => rfl
  | cons hid rest ih => simp [mkRows, ih]

/-- The created rows carry exactly the ids the loop returns. -/
theorem mkRows_map_id (baseId : Nat) (now : Int) (list : List Nat)
    (name email g : String) :
    (mkRows baseId now list name email g).map (fun r => r.id) =
      idsFrom baseId list.length := by
  induction list generalizing baseId with
  | nil => rfl
  | cons hid rest ih => simp [mkRows, idsFrom_succ, ih]

/-- Blocking rows among the freshly inserted ones, per slot: exactly the
multiplicity of the slot in the requested list (each fresh hold blocks,
since `now < now + 10 minutes`). -/
theorem mkRows_countP_blocking (baseId : Nat) (now : Int) (list : List Nat)
    (name email g : String) (hid : Nat) :
    (mkRows baseId now list name email g).countP (blockingOn now hid) =
      list.count hid := by
  induction list generalizing baseId with
  | nil => rfl
  | cons h rest ih =>
    rw [List.count_cons]
    simp only [mkRows, List.countP_cons, ih]
    have hb : blockingOn now hid
        { id := baseId, horario_id := h, alumno_nombre := name,
          alumno_email := email, estado := Estado.pendiente,
          reservado_hasta := some (now + holdSeconds), group_ref := some g } =
        (h == hid) := by
      have hlt : now < now + holdSeconds := by unfold holdSeconds; omega
      unfold blockingOn isBlocking expiresAfter
      simp [hlt]
    rw [hb]

/-- The sweeper never moves a row to another slot. -/
theorem sweepRow_horario (now : Int) (r : Reserva) :
    (sweepRow now r).horario_id = r.horario_id := by
  unfold sweepRow
  split <;> rfl

/-- A cancelled row never blocks. -/
theorem isBlocking_cancelado {now : Int} {r : Reserva}
    (h : r.estado = Estado.cancelado) : isBlocking now r = false := by
  unfold isBlocking
  simp [h]

/-- C5: an individual-mode checkout over a slot list containing any slot
with an existing blocking reservation fails with the 409 `not_available`
response and creates no reservation rows at all — the returned state is the
input state, so there is no partial hold. -/
theorem c5_group_hold_all_or_nothing (s : ServerState) (req : PrefReq)
    (g : String) (mpOk : Bool) (hid : Nat)
    (hnd : s.horarios.Nodup)
    (htitle : titleOk req.title = true)
    (hprice : 0 < req.price)
    (hcur : currencyOk req.currency = true)
    (hmod : resolvedModalidad req = "individual")
    (hmem : hid ∈ resolvedList req)
    (hblk : slotBlocked s.reservas hid s.now = true) :
    crearPreferencia s req g mpOk = (s, PrefResp.notAvailable) := by
  have hne : resolvedList req ≠ [] := by
    intro h0
    rw [h0] at hmem
    exact List.not_mem_nil hid hmem
  have hlt : availCount s (resolvedList req) < (resolvedList req).length := by
    have hAnd : (s.horarios.filter fun h => (resolvedList req).contains h &&
        !slotBlocked s.reservas h s.now).Nodup := hnd.filter _
    have hsub : (s.horarios.filter fun h => (resolvedList req).contains h &&
        !slotBlocked s.reservas h s.now) ⊆ (resolvedList req).dedup.erase hid := by
      intro a ha
      have hqa := List.of_mem_filter ha
      have hal : a ∈ resolvedList req := by
        rcases Bool.and_eq_true .. |>.mp hqa with ⟨h1, _⟩
        simpa using h1
      have hane : a ≠ hid := by
        rintro rfl
        rcases Bool.and_eq_true .. |>.mp hqa with ⟨_, h2⟩
        simp [hblk] at h2
      exact (List.mem_erase_of_ne hane).mpr (List.mem_dedup.mpr hal)
    have h1 : availCount s (resolvedList req) ≤
        ((resolvedList req).dedup.erase hid).length :=
      (List.subperm_of_subset hAnd hsub).length_le
    have h2 : ((resolvedList req).dedup.erase hid).length =
        (resolvedList req).dedup.length - 1 :=
      List.length_erase_of_mem (List.mem_dedup.mpr hmem)
    have h3 : (resolvedList req).dedup.length ≤ (resolvedList req).length :=
      (List.dedup_sublist (resolvedList req)).length_le
    have h4 : 0 < (resolvedList req).dedup.length :=
      List.length_pos.mpr (List.ne_nil_of_mem (List.mem_dedup.mpr hmem))
    omega
  have hE : (resolvedList req).isEmpty = false := by
    simp [List.isEmpty_iff, hne]
  unfold crearPreferencia
  simp [htitle, hcur, hmod, hE, not_le.mpr hprice, Nat.ne_of_lt hlt]

/-- Witness for `c5_group_hold_all_or_nothing`: slot 1 is already `pagado`,
so a checkout for slots [1, 2] yields 409 and writes nothing. -/
theorem c5_group_hold_all_or_nothing_witness :
    crearPreferencia
      ⟨[1, 2], [⟨1, 1, "X", "x@x.com", Estado.pagado, none, none⟩], 2, 0⟩
      ⟨some "Clases", 1, "ARS", [1, 2], 0, some "Ana", some "ana@x.com", none⟩
      "g1" true =
    (⟨[1, 2], [⟨1, 1, "X", "x@x.com", Estado.pagado, none, none⟩], 2, 0⟩,
     PrefResp.notAvailable) :=
  c5_group_hold_all_or_nothing _ _ "g1" true 1 (by decide) (by decide) (by decide)
    (by decide) (by decide) (by decide) (by decide)

/-- C7: each sweeper tick cancels exactly the `pendiente` rows whose hold
expiry is non-null and strictly past, touches no other row, is a no-op when
re-run immediately, and afterwards a hold request for a slot whose rows were
all cancelled or expired-pending succeeds. -/
theorem c7_sweeper_exactly_expired (now : Int) (db : Ledger) :
    (∀ r : Reserva, expiredPending now r = true →
        sweepRow now r = { r with estado := Estado.cancelado }) ∧
    (∀ r : Reserva, expiredPending now r = false → sweepRow now r = r) ∧
    sweep now (sweep now db) = sweep now db ∧
    (∀ (s : ServerState) (hid : Nat) (nm em : Option String),
      hid ≠ 0 → hid ∈ s.horarios →
      (∀ r ∈ s.reservas, r.horario_id = hid →
          r.estado = Estado.cancelado ∨ expiredPending s.now r = true) →
      (holdSimple (sweepState s) hid nm em).2 =
        HoldResp.ok s.nextId (some (s.now + holdSeconds))) := by
  refine ⟨fun r h => sweepRow_of_expired h,
          fun r h => sweepRow_of_not_expired h, ?_, ?_⟩
  · unfold sweep
    rw [List.map_map]
    refine List.map_congr_left fun r _ => ?_
    show sweepRow now (sweepRow now r) = sweepRow now r
    by_cases h : expiredPending now r = true
    · rw [sweepRow_of_expired h]
      exact sweepRow_of_not_expired (by simp [expiredPending])
    · have h' : expiredPending now r = false := by simpa using h
      rw [sweepRow_of_not_expired h', sweepRow_of_not_expired h']
  · intro s hid nm em h0 hmem hrows
    have hcont : (sweepState s).horarios.contains hid = true := by
      simp [sweepState, hmem]
    have hnb : slotBlocked (sweepState s).reservas hid (sweepState s).now = false := by
      show slotBlocked (sweep s.now s.reservas) hid s.now = false
      unfold slotBlocked sweep
      rw [List.any_map, List.any_eq_false]
      intro r hr
      simp only [Function.comp]
      unfold blockingOn
      by_cases hcol : r.horario_id = hid
      · rcases hrows r hr hcol with hcanc | hexp
        · rw [sweepRow_of_not_expired (by simp [expiredPending, hcanc])]
          simp [isBlocking_cancelado hcanc]
        · rw [sweepRow_of_expired hexp]
          have : isBlocking s.now ({ r with estado := Estado.cancelado } : Reserva) = false :=
            isBlocking_cancelado rfl
          simp [this]
      · have : (sweepRow s.now r).horario_id ≠ hid := by
          rw [sweepRow_horario]
          exact hcol
        simp [this]
    unfold holdSimple
    rw [if_neg h0, if_pos (by rw [hcont, hnb]; rfl)]
    rfl

/-- Witness for `c7_sweeper_exactly_expired`: slot 3 carries one expired
pending row; after the sweeper tick a hold on slot 3 succeeds. -/
theorem c7_sweeper_exactly_expired_witness :
    (holdSimple (sweepState ⟨[3], [⟨1, 3, "A", "a@x.com", Estado.pendiente,
        some (-5), none⟩], 2, 0⟩) 3 none none).2 =
      HoldResp.ok 2 (some (0 + holdSeconds)) :=
  (c7_sweeper_exactly_expired 0 []).2.2.2
    ⟨[3], [⟨1, 3, "A", "a@x.com", Estado.pendiente, some (-5), none⟩], 2, 0⟩
    3 none none (by decide) (by decide) (by decide)

/-- C8: a successful individual-mode checkout over list `L` commits exactly
one `pendiente` row per slot of `L` (in order), all sharing the one freshly
generated group ref, each holding until the transaction's `now()` plus 10
minutes, with consecutive SERIAL ids; the response carries that group ref
and exactly the created reservation ids. -/
theorem c8_group_hold_success (s : ServerState) (req : PrefReq) (g : String)
    (htitle : titleOk req.title = true)
    (hprice : 0 < req.price)
    (hcur : currencyOk req.currency = true)
    (hmod : resolvedModalidad req = "individual")
    (hne : resolvedList req ≠ [])
    (havail : availCount s (resolvedList req) = (resolvedList req).length) :
    crearPreferencia s req g true =
      ({ s with
         reservas := s.reservas ++
           mkRows s.nextId s.now (resolvedList req)
             (jsTextOrDefault req.alumno_nombre "N/A")
             (jsTextOrDefault req.alumno_email "noemail@paupau.local") g,
         nextId := s.nextId + (resolvedList req).length },
       PrefResp.ok g (idsFrom s.nextId (resolvedList req).length)) ∧
    (mkRows s.nextId s.now (resolvedList req)
        (jsTextOrDefault req.alumno_nombre "N/A")
        (jsTextOrDefault req.alumno_email "noemail@paupau.local") g).map
      (fun r => r.horario_id) = resolvedList req ∧
    (mkRows s.nextId s.now (resolvedList req)
        (jsTextOrDefault req.alumno_nombre "N/A")
        (jsTextOrDefault req.alumno_email "noemail@paupau.local") g).map
      (fun r => r.id) = idsFrom s.nextId (resolvedList req).length ∧
    ∀ r ∈ mkRows s.nextId s.now (resolvedList req)
        (jsTextOrDefault req.alumno_nombre "N/A")
        (jsTextOrDefault req.alumno_email "noemail@paupau.local") g,
      r.estado = Estado.pendiente ∧
      r.reservado_hasta = some (s.now + holdSeconds) ∧
      r.group_ref = some g := by
  have hE : (resolvedList req).isEmpty = false := by
    simp [List.isEmpty_iff, hne]
  refine ⟨?_, mkRows_map_horario _ _ _ _ _ _, mkRows_map_id _ _ _ _ _ _,
          fun r hr => ⟨(mkRows_fields _ _ _ _ _ _ r hr).1,
                       (mkRows_fields _ _ _ _ _ _ r hr).2.1,
                       (mkRows_fields _ _ _ _ _ _ r hr).2.2.1⟩⟩
  unfold crearPreferencia
  simp [htitle, hcur, hmod, hE, not_le.mpr hprice, havail, insertHolds_eq]

/-- Witness for `c8_group_hold_success`: a two-slot checkout on an empty
ledger commits the two holds and returns their ids. -/
theorem c8_group_hold_success_witness :
    crearPreferencia ⟨[1, 2], [], 1, 0⟩
        ⟨some "Clases", 1, "ARS", [1, 2], 0, some "Ana", some "ana@x.com", none⟩
        "g1" true =
      ({ (⟨[1, 2], [], 1, 0⟩ : ServerState) with
         reservas := ([] : Ledger) ++
           mkRows 1 0 (resolvedList ⟨some "Clases", 1, "ARS", [1, 2], 0,
               some "Ana", some "ana@x.com", none⟩)
             (jsTextOrDefault (some "Ana") "N/A")
             (jsTextOrDefault (some "ana@x.com") "noemail@paupau.local") "g1",
         nextId := 1 + (resolvedList ⟨some "Clases", 1, "ARS", [1, 2], 0,
             some "Ana", some "ana@x.com", none⟩).length },
       PrefResp.ok "g1" (idsFrom 1 (resolvedList ⟨some "Clases", 1, "ARS",
           [1, 2], 0, some "Ana", some "ana@x.com", none⟩).length)) :=
  (c8_group_hold_success ⟨[1, 2], [], 1, 0⟩
      ⟨some "Clases", 1, "ARS", [1, 2], 0, some "Ana", some "ana@x.com", none⟩
      "g1" (by decide) (by decide) (by decide) (by decide) (by decide)
      (by decide)).1

/-- The checkout response is a function of everything in the request except
the student name and e-mail: those flow only into the inserted rows. -/
theorem crearPreferencia_resp_congr (s : ServerState) (req req2 : PrefReq)
    (g : String) (mpOk : Bool)
    (ht : req2.title = req.title) (hp : req2.price = req.price)
    (hc : req2.currency = req.currency)
    (hh : req2.horarios_ids = req.horarios_ids)
    (hh2 : req2.horario_id = req.horario_id)
    (hf : req2.form_modalidad = req.form_modalidad) :
    (crearPreferencia s req2 g mpOk).2 = (crearPreferencia s req g mpOk).2 := by
  have hm : resolvedModalidad req2 = resolvedModalidad req := by
    unfold resolvedModalidad
    rw [hf]
  have hl : resolvedList req2 = resolvedList req := by
    unfold resolvedList
    rw [hh, hh2]
  unfold crearPreferencia
  rw [ht, hp, hc, hm, hl]
  by_cases h1 : titleOk req.title = false
  · rw [if_pos h1, if_pos h1]
  · rw [if_neg h1, if_neg h1]
    by_cases h2 : req.price ≤ 0
    · rw [if_pos h2, if_pos h2]
    · rw [if_neg h2, if_neg h2]
      by_cases h3 : currencyOk req.currency = false
      · rw [if_pos h3, if_pos h3]
      · rw [if_neg h3, if_neg h3]
        by_cases h4 : resolvedModalidad req = "individual" ∧
            (resolvedList req).isEmpty
        · rw [if_pos h4, if_pos h4]
        · rw [if_neg h4, if_neg h4]
          by_cases h5 : resolvedModalidad req = "individual"
          · rw [if_pos h5, if_pos h5]
            by_cases h6 : availCount s (resolvedList req) ≠
                (resolvedList req).length
            · rw [if_pos h6, if_pos h6]
            · rw [if_neg h6, if_neg h6]
              rw [insertHolds_eq, insertHolds_eq]
              by_cases h7 : mpOk = true
              · rw [if_pos h7, if_pos h7]
              · rw [if_neg h7, if_neg h7]
          · rw [if_neg h5, if_neg h5]

/-- C10: neither public endpoint's response depends on the student name or
e-mail (so a missing or blank name/e-mail is never rejected), the JS
defaulting idiom maps absent or blank input to the default, and a
successful hold records exactly the defaulted name `N/A` and e-mail
`noemail@paupau.local` in the created row. -/
theorem c10_name_email_defaults (s : ServerState) :
    (∀ (hid : Nat) (nm em nm2 em2 : Option String),
        (holdSimple s hid nm em).2 = (holdSimple s hid nm2 em2).2) ∧
    (∀ (req : PrefReq) (g : String) (mpOk : Bool) (nm2 em2 : Option String),
        (crearPreferencia s
            { req with alumno_nombre := nm2, alumno_email := em2 } g mpOk).2 =
          (crearPreferencia s req g mpOk).2) ∧
    (∀ (v : Option String) (d : String),
        (v = none ∨ ∃ ws, v = some ws ∧ ws.trim = "") →
        jsTextOrDefault v d = d) ∧
    (∀ (hid : Nat) (nm em : Option String), hid ≠ 0 →
        s.horarios.contains hid = true →
        slotBlocked s.reservas hid s.now = false →
        (holdSimple s hid nm em).1.reservas =
          s.reservas ++
            [{ id := s.nextId, horario_id := hid,
               alumno_nombre := jsTextOrDefault nm "N/A",
               alumno_email := jsTextOrDefault em "noemail@paupau.local",
               estado := Estado.pendiente,
               reservado_hasta := some (s.now + holdSeconds),
               group_ref := none }]) := by
  refine ⟨?_, ?_, ?_, ?_⟩
  · intro hid nm em nm2 em2
    unfold holdSimple
    by_cases h0 : hid = 0
    · rw [if_pos h0, if_pos h0]
    · rw [if_neg h0, if_neg h0]
      by_cases hc : (s.horarios.contains hid && !slotBlocked s.reservas hid s.now) = true
      · rw [if_pos hc, if_pos hc]
      · rw [if_neg hc, if_neg hc]
  · intro req g mpOk nm2 em2
    exact crearPreferencia_resp_congr s req
      { req with alumno_nombre := nm2, alumno_email := em2 } g mpOk
      rfl rfl rfl rfl rfl rfl
  · intro v d hv
    rcases hv with rfl | ⟨ws, rfl, hws⟩
    · rfl
    · simp [jsTextOrDefault, hws]
  · intro hid nm em h0 hcont hnb
    unfold holdSimple
    rw [if_neg h0, if_pos (by rw [hcont, hnb]; rfl)]

/-- Witness for `c10_name_email_defaults`: a hold with no name and a blank
e-mail succeeds and records the two defaults. -/
theorem c10_name_email_defaults_witness :
    (holdSimple (⟨[7], [], 4, 100⟩ : ServerState) 7 none (some "  ")).1.reservas =
      ([] : Ledger) ++
        [{ id := 4, horario_id := 7,
           alumno_nombre := jsTextOrDefault none "N/A",
           alumno_email := jsTextOrDefault (some "  ") "noemail@paupau.local",
           estado := Estado.pendiente,
           reservado_hasta := some ((100 : Int) + holdSeconds),
           group_ref := none }] :=
  (c10_name_email_defaults ⟨[7], [], 4, 100⟩).2.2.2 7 none (some "  ")
    (by decide) (by decide) (by decide)

/-!  Capacity invariant for the webhook-free system (claim C2). -/

/-- When the all-slots availability check of the individual transaction
returns exactly one row per requested slot (over a duplicate-free
`horarios` table), the requested list is duplicate-free and every slot in
it exists and is unblocked. -/
theorem avail_of_availCount_eq {s : ServerState} {list : List Nat}
    (hnd : s.horarios.Nodup)
    (h : availCount s list = list.length) :
    list.Nodup ∧ ∀ hid ∈ list, hid ∈ s.horarios ∧
      slotBlocked s.reservas hid s.now = false := by
  have hAnd : (s.horarios.filter fun x => list.contains x &&
      !slotBlocked s.reservas x s.now).Nodup := hnd.filter _
  have hsub : (s.horarios.filter fun x => list.contains x &&
      !slotBlocked s.reservas x s.now) ⊆ list.dedup := by
    intro a ha
    have hqa := List.of_mem_filter ha
    rcases Bool.and_eq_true .. |>.mp hqa with ⟨h1, _⟩
    exact List.mem_dedup.mpr (by simpa using h1)
  have hsp := List.subperm_of_subset hAnd hsub
  have hlen : (s.horarios.filter fun x => list.contains x &&
      !slotBlocked s.reservas x s.now).length = list.length := h
  have hd2 : list.dedup.length ≤ list.length :=
    (List.dedup_sublist list).length_le
  have hdl : list.dedup.length = list.length :=
    le_antisymm hd2 (by rw [← hlen]; exact hsp.length_le)
  have hded : list.dedup = list := (List.dedup_sublist list).eq_of_length hdl
  have hperm : List.Perm (s.horarios.filter fun x => list.contains x &&
      !slotBlocked s.reservas x s.now) list.dedup :=
    hsp.perm_of_length_le (by rw [hdl, hlen])
  refine ⟨List.dedup_eq_self.mp hded, ?_⟩
  intro hid hmem
  have hin : hid ∈ s.horarios.filter fun x => list.contains x &&
      !slotBlocked s.reservas x s.now := by
    rw [hperm.mem_iff]
    exact List.mem_dedup.mpr hmem
  have hq := List.of_mem_filter hin
  rcases Bool.and_eq_true .. |>.mp hq with ⟨_, h2⟩
  exact ⟨List.mem_of_mem_filter hin, by simpa using h2⟩

/-- `POST /hold` either leaves the state untouched or appends its one fresh
pending row after a successful availability check. -/
theorem holdSimple_state (s : ServerState) (hid : Nat) (nm em : Option String) :
    (holdSimple s hid nm em).1 = s ∨
    ((holdSimple s hid nm em).1 =
        { s with nextId := s.nextId + 1, reservas := s.reservas ++
            [{ id := s.nextId, horario_id := hid,
               alumno_nombre := jsTextOrDefault nm "N/A",
               alumno_email := jsTextOrDefault em "noemail@paupau.local",
               estado := Estado.pendiente,
               reservado_hasta := some (s.now + holdSeconds),
               group_ref := none }] } ∧
      slotBlocked s.reservas hid s.now = false) := by
  unfold holdSimple
  by_cases h0 : hid = 0
  · rw [if_pos h0]
    exact Or.inl rfl
  · rw [if_neg h0]
    by_cases hc : (s.horarios.contains hid &&
        !slotBlocked s.reservas hid s.now) = true
    · rw [if_pos hc]
      refine Or.inr ⟨rfl, ?_⟩
      rcases Bool.and_eq_true .. |>.mp hc with ⟨_, h2⟩
      simpa using h2
    · rw [if_neg hc]
      exact Or.inl rfl

/-- `POST /crear-preferencia` either leaves the state untouched or commits
the insert loop after a successful all-slots availability check. -/
theorem crearPreferencia_state (s : ServerState) (req : PrefReq) (g : String)
    (mpOk : Bool) :
    (crearPreferencia s req g mpOk).1 = s ∨
    ((crearPreferencia s req g mpOk).1 =
        { s with nextId := s.nextId + (resolvedList req).length,
                 reservas := s.reservas ++
                   mkRows s.nextId s.now (resolvedList req)
                     (jsTextOrDefault req.alumno_nombre "N/A")
                     (jsTextOrDefault req.alumno_email "noemail@paupau.local")
                     g } ∧
      availCount s (resolvedList req) = (resolvedList req).length) := by
  unfold crearPreferencia
  by_cases h1 : titleOk req.title = false
  · rw [if_pos h1]; exact Or.inl rfl
  · rw [if_neg h1]
    by_cases h2 : req.price ≤ 0
    · rw [if_pos h2]; exact Or.inl rfl
    · rw [if_neg h2]
      by_cases h3 : currencyOk req.currency = false
      · rw [if_pos h3]; exact Or.inl rfl
      · rw [if_neg h3]
        by_cases h4 : resolvedModalidad req = "individual" ∧
            (resolvedList req).isEmpty
        · rw [if_pos h4]; exact Or.inl rfl
        · rw [if_neg h4]
          by_cases h5 : resolvedModalidad req = "individual"
          · rw [if_pos h5]
            by_cases h6 : availCount s (resolvedList req) ≠
                (resolvedList req).length
            · rw [if_pos h6]; exact Or.inl rfl
            · rw [if_neg h6]
              by_cases h7 : mpOk = true
              · rw [if_pos h7]
                exact Or.inr ⟨by rw [insertHolds_eq], not_ne_iff.mp h6⟩
              · rw [if_neg h7]
                exact Or.inr ⟨by rw [insertHolds_eq], not_ne_iff.mp h6⟩
          · rw [if_neg h5]
            by_cases h7 : mpOk = true
            · rw [if_pos h7]; exact Or.inl rfl
            · rw [if_neg h7]; exact Or.inl rfl

/-- Sweeping cannot create a blocking row. -/
theorem blockingOn_sweepRow {now : Int} {hid : Nat} {r : Reserva}
    (h : blockingOn now hid (sweepRow now r) = true) :
    blockingOn now hid r = true := by
  by_cases hexp : expiredPending now r = true
  · rw [sweepRow_of_expired hexp] at h
    rcases Bool.and_eq_true .. |>.mp h with ⟨_, h2⟩
    rw [isBlocking_cancelado rfl] at h2
    exact absurd h2 (by simp)
  · rwa [sweepRow_of_not_expired (by simpa using hexp)] at h

/-- The admin cancel updates cannot create a blocking row. -/
theorem blockingOn_cancelOn {now : Int} {h2 hid : Nat} {es : List Estado}
    {r : Reserva} (h : blockingOn now h2 (cancelOn hid es r) = true) :
    blockingOn now h2 r = true := by
  unfold cancelOn at h
  split at h
  · rcases Bool.and_eq_true .. |>.mp h with ⟨ha, hb⟩
    rw [isBlocking_cancelado rfl] at hb
    exact absurd hb (by simp)
  · exact h

/-- The admin cancel updates never move a row to another slot. -/
theorem cancelOn_horario (hid : Nat) (es : List Estado) (r : Reserva) :
    (cancelOn hid es r).horario_id = r.horario_id := by
  unfold cancelOn
  split <;> rfl

/-- Appending one row to a slot that had no blocking row keeps every slot's
blocking count at most one. -/
theorem capacity_after_single {s : ServerState} (row : Reserva)
    (hnb : slotBlocked s.reservas row.horario_id s.now = false)
    (hcap : ∀ hid, blockingCount s hid ≤ 1) (hid : Nat) :
    (s.reservas ++ [row]).countP (blockingOn s.now hid) ≤ 1 := by
  rw [List.countP_append]
  by_cases hh : row.horario_id = hid
  · have h0 : s.reservas.countP (blockingOn s.now hid) = 0 :=
      countP_blocking_eq_zero (hh ▸ hnb)
    have h1 : ([row] : Ledger).countP (blockingOn s.now hid) ≤ 1 := by
      rw [List.countP_cons, List.countP_nil]
      split <;> omega
    omega
  · have h1 : ([row] : Ledger).countP (blockingOn s.now hid) = 0 := by
      have hf : blockingOn s.now hid row = false := by
        unfold blockingOn
        simp [hh]
      rw [List.countP_cons, List.countP_nil, hf]
      rfl
    have h2 := hcap hid
    unfold blockingCount at h2
    omega

/-- Committing the insert loop after a successful all-slots check keeps the
capacity invariant: each requested slot was empty and gains exactly one
fresh blocking hold. -/
theorem capacity_after_insert {s : ServerState} {list : List Nat}
    {nm em g : String}
    (hnd : s.horarios.Nodup)
    (havail : availCount s list = list.length)
    (hcap : ∀ hid, blockingCount s hid ≤ 1) (hid : Nat) :
    (s.reservas ++ mkRows s.nextId s.now list nm em g).countP
      (blockingOn s.now hid) ≤ 1 := by
  rcases avail_of_availCount_eq hnd havail with ⟨hlnd, hall⟩
  rw [List.countP_append, mkRows_countP_blocking]
  by_cases hmem : hid ∈ list
  · have h0 : s.reservas.countP (blockingOn s.now hid) = 0 :=
      countP_blocking_eq_zero (hall hid hmem).2
    have h1 : list.count hid ≤ 1 := List.nodup_iff_count_le_one.mp hlnd hid
    omega
  · have h1 : list.count hid = 0 := List.count_eq_zero_of_not_mem hmem
    have h2 := hcap hid
    unfold blockingCount at h2
    omega

/-- After the admin force-state cancel pass (slot `hid`, states `pendiente`
and `bloqueado`) there is no blocking row left on `hid`, provided no
`pagado` row was there. -/
theorem capacity_cancel2_zero {s : ServerState} {hid : Nat}
    (hnopag : (s.reservas.any fun r =>
        r.horario_id == hid && r.estado == Estado.pagado) = false) :
    (s.reservas.map (cancelOn hid [Estado.pendiente, Estado.bloqueado])).countP
      (blockingOn s.now hid) = 0 := by
  rw [List.countP_map, List.countP_eq_zero]
  intro r hr
  have hnp := List.any_eq_false.mp hnopag r hr
  by_cases hcol : r.horario_id = hid
  · cases hre : r.estado
    · simp [Function.comp, cancelOn, hcol, hre, blockingOn, isBlocking]
    · exact absurd (by simp [hcol, hre]) hnp
    · simp [Function.comp, cancelOn, hcol, hre, blockingOn, isBlocking]
    · simp [Function.comp, cancelOn, hcol, hre, blockingOn, isBlocking,
        expiresAfter]
  · simp [Function.comp, blockingOn, cancelOn_horario, hcol]

/-- The admin force-state branches (cancel co-existing `pendiente` and
`bloqueado` rows, insert one fresh admin row on the slot) keep the capacity
invariant when the slot carries no `pagado` row. -/
theorem capacity_estado_branch {s : ServerState} {hid : Nat} (row : Reserva)
    (hrow_slot : row.horario_id = hid)
    (hnopag : (s.reservas.any fun r =>
        r.horario_id == hid && r.estado == Estado.pagado) = false)
    (hcap : ∀ h2, blockingCount s h2 ≤ 1) (h2 : Nat) :
    ((s.reservas.map (cancelOn hid [Estado.pendiente, Estado.bloqueado])) ++
      [row]).countP (blockingOn s.now h2) ≤ 1 := by
  rw [List.countP_append]
  by_cases hh : h2 = hid
  · subst hh
    rw [capacity_cancel2_zero hnopag]
    have h1 : ([row] : Ledger).countP (blockingOn s.now h2) ≤ 1 := by
      rw [List.countP_cons, List.countP_nil]
      split <;> omega
    omega
  · have hz : ([row] : Ledger).countP (blockingOn s.now h2) = 0 := by
      have hf : blockingOn s.now h2 row = false := by
        unfold blockingOn
        simp [hrow_slot, Ne.symm hh]
      rw [List.countP_cons, List.countP_nil, hf]
      rfl
    have hmono : (s.reservas.map
        (cancelOn hid [Estado.pendiente, Estado.bloqueado])).countP
        (blockingOn s.now h2) ≤ blockingCount s h2 := by
      rw [List.countP_map]
      exact List.countP_mono_left fun r _ hb => blockingOn_cancelOn hb
    have h3 := hcap h2
    omega

/-- The capacity invariant holds in every state reachable without the
payment-webhook confirmation (together with the duplicate-freeness of the
slot table, which the induction carries). -/
theorem reaches_no_webhook_inv {s : ServerState} (h : Reaches false s) :
    s.horarios.Nodup ∧ ∀ hid, blockingCount s hid ≤ 1 := by
  induction h with
  | init =>
    refine ⟨List.nodup_nil, fun hid => ?_⟩
    simp [blockingCount, initState]
  | @tick s t _ hle ih =>
    refine ⟨ih.1, fun hid => ?_⟩
    refine le_trans ?_ (ih.2 hid)
    show s.reservas.countP (blockingOn t hid) ≤
      s.reservas.countP (blockingOn s.now hid)
    exact List.countP_mono_left fun r _ hb => blockingOn_mono hid r hle hb
  | @addSlot s hid _ hfresh ih =>
    refine ⟨?_, ih.2⟩
    rw [List.nodup_append]
    refine ⟨ih.1, List.nodup_singleton _, ?_⟩
    intro a ha hb
    rw [List.mem_singleton] at hb
    subst hb
    exact hfresh ha
  | @hold s hid nm em _ ih =>
    rcases holdSimple_state s hid nm em with heq | ⟨heq, hnb⟩
    · rw [heq]; exact ih
    · rw [heq]
      refine ⟨ih.1, fun h2 => ?_⟩
      exact capacity_after_single _ hnb ih.2 h2
  | @pref s req g mpOk _ ih =>
    rcases crearPreferencia_state s req g mpOk with heq | ⟨heq, havail⟩
    · rw [heq]; exact ih
    · rw [heq]
      refine ⟨ih.1, fun h2 => ?_⟩
      exact capacity_after_insert ih.1 havail ih.2 h2
  | @sweeper s _ ih =>
    refine ⟨ih.1, fun hid => ?_⟩
    show (s.reservas.map (sweepRow s.now)).countP (blockingOn s.now hid) ≤ 1
    rw [List.countP_map]
    refine le_trans ?_ (ih.2 hid)
    exact List.countP_mono_left fun r _ hb => blockingOn_sweepRow hb
  | @webhook s g hw _ _ =>
    exact absurd hw (by simp)
  | @liberar s hid _ ih =>
    unfold adminLiberar
    by_cases h0 : hid = 0
    · rw [if_pos h0]; exact ih
    · rw [if_neg h0]
      refine ⟨ih.1, fun h2 => ?_⟩
      show (s.reservas.map
          (cancelOn hid [Estado.pendiente, Estado.bloqueado, Estado.pagado])).countP
        (blockingOn s.now h2) ≤ 1
      rw [List.countP_map]
      refine le_trans ?_ (ih.2 h2)
      exact List.countP_mono_left fun r _ hb => blockingOn_cancelOn hb
  | @forceEstado s hid est _ ih =>
    unfold adminEstado
    by_cases h0 : hid = 0 ∨ est = ""
    · rw [if_pos h0]; exact ih
    · rw [if_neg h0]
      by_cases hp : (s.reservas.any fun r =>
          r.horario_id == hid && r.estado == Estado.pagado) = true ∧
          est ≠ "disponible"
      · rw [if_pos hp]; exact ih
      · rw [if_neg hp]
        by_cases hd : est = "disponible"
        · rw [if_pos hd]
          refine ⟨ih.1, fun h2 => ?_⟩
          show (s.reservas.map
              (cancelOn hid [Estado.pendiente, Estado.bloqueado, Estado.pagado])).countP
            (blockingOn s.now h2) ≤ 1
          rw [List.countP_map]
          refine le_trans ?_ (ih.2 h2)
          exact List.countP_mono_left fun r _ hb => blockingOn_cancelOn hb
        · rw [if_neg hd]
          have hnopag : (s.reservas.any fun r =>
              r.horario_id == hid && r.estado == Estado.pagado) = false := by
            rcases not_and_or.mp hp with hnp | hnd
            · simpa using hnp
            · exact absurd (not_not.mp hnd) hd
          by_cases hpe : est = "pendiente"
          · rw [if_pos hpe]
            refine ⟨ih.1, fun h2 => ?_⟩
            show ((s.reservas.map
                (cancelOn hid [Estado.pendiente, Estado.bloqueado])) ++
              ([{ id := s.nextId, horario_id := hid, alumno_nombre := "ADMIN",
                  alumno_email := "admin@paupau.local",
                  estado := Estado.pendiente,
                  reservado_hasta := some (s.now + daySeconds),
                  group_ref := none }] : Ledger)).countP (blockingOn s.now h2) ≤ 1
            refine capacity_estado_branch _ ?_ hnopag ih.2 h2
            rfl
          · rw [if_neg hpe]
            by_cases hbl : est = "bloqueado"
            · rw [if_pos hbl]
              refine ⟨ih.1, fun h2 => ?_⟩
              show ((s.reservas.map
                  (cancelOn hid [Estado.pendiente, Estado.bloqueado])) ++
                ([{ id := s.nextId, horario_id := hid, alumno_nombre := "ADMIN",
                    alumno_email := "admin@paupau.local",
                    estado := Estado.bloqueado,
                    reservado_hasta := some (s.now + centurySeconds),
                    group_ref := none }] : Ledger)).countP (blockingOn s.now h2) ≤ 1
              refine capacity_estado_branch _ ?_ hnopag ih.2 h2
              rfl
            · rw [if_neg hbl]
              exact ih

/-- C2 fails on the code: the state `cexState` is reachable — a checkout
holds slot 1, the hold expires and the sweeper cancels it, a second student
holds the now-free slot, and the late payment webhook for the first
checkout then resurrects the swept row to `pagado` — yet slot 1 ends with
two simultaneously blocking reservations. -/
theorem c2_counterexample_capacity_violated :
    ¬ (∀ s : ServerState, Reaches true s →
        ∀ hid : Nat, blockingCount s hid ≤ 1) := by
  intro h
  have h0 : Reaches true initState := Reaches.init
  have h1 := Reaches.addSlot 1 h0 (by decide)
  have h2 := Reaches.pref cexReq "g1" true h1
  have h3 := Reaches.tick 700 h2 (by decide)
  have h4 := Reaches.sweeper h3
  have h5 := Reaches.hold 1 (some "Bea") (some "bea@x.com") h4
  have h6 := Reaches.webhook "g1" rfl h5
  have hc : blockingCount cexState 1 ≤ 1 := h _ h6 1
  exact absurd hc (by decide)

/-- C2 amended: the capacity invariant — at most one blocking reservation
per slot, blocking meaning `pagado`, `bloqueado`, or `pendiente` with an
unexpired hold — holds in every ledger state reachable through hold
creation, individual-mode group checkout, the sweeper and the admin
liberar/estado endpoints, that is, through every writer except the
payment-webhook confirmation, whose unconditional UPDATE is the one
operation that can break it. -/
theorem c2_capacity_invariant_without_webhook (s : ServerState)
    (h : Reaches false s) (hid : Nat) : blockingCount s hid ≤ 1 :=
  (reaches_no_webhook_inv h).2 hid

/-- Witness for `c2_capacity_invariant_without_webhook` on a freshly held
slot. -/
theorem c2_capacity_invariant_without_webhook_witness :
    blockingCount (holdSimple { initState with
        horarios := initState.horarios ++ [1] } 1 (some "Ana") none).1 1 ≤ 1 :=
  c2_capacity_invariant_without_webhook _
    (Reaches.hold 1 (some "Ana") none
      (Reaches.addSlot 1 Reaches.init (by decide))) 1

/-- Witness for `c6_derived_state_priority`: a slot holding both a `pagado`
row and an unexpired `pendiente` row is displayed `ocupado`. -/
theorem c6_derived_state_priority_witness :
    derivedState [⟨1, 1, "A", "a@x.com", Estado.pagado, none, none⟩,
      ⟨2, 1, "B", "b@x.com", Estado.pendiente, some 900, none⟩] 1 0 = "ocupado" :=
  (c6_derived_state_priority
      [⟨1, 1, "A", "a@x.com", Estado.pagado, none, none⟩,
       ⟨2, 1, "B", "b@x.com", Estado.pendiente, some 900, none⟩] 1 0).1.mpr
    ⟨⟨1, 1, "A", "a@x.com", Estado.pagado, none, none⟩, by simp, rfl, rfl⟩

end PauPau
